import Mathlib

/-
Verification of oslo/messaging/notify/notifier.py (savi-dev/oslo.messaging).

Shallow embedding of the notification publisher front-end: envelope
construction, driver-registry holding, fan-out dispatch with per-driver
exception isolation, the prepare specialization mechanism, and the
serializer defaulting at construction.

Modelling decisions:
- Python values that flow through the pipeline (contexts, payloads,
  publisher ids, event types, priorities) are modelled by the inductive
  PyVal, which carries Python truthiness (None and the empty string are
  falsy), since the source uses `or` on publisher_id and serializer.
- Exceptions are modelled with Except PyErr: a function that can raise
  returns Except PyErr A.  The try/except in do_notify (notifier.py
  lines 162-168) is modelled by do_notify absorbing the driver error
  into a logged Event instead of propagating it.
- uuidutils.generate_uuid() and str(timeutils.utcnow()) are injected
  utility functions (out of scope per the spec); they are threaded as
  explicit String arguments uuid and timestamp of _notify.
- The stevedore NamedExtensionManager holds the loaded driver
  instances; it is modelled by the field `drivers : List Driver`
  together with `loadCount`, which counts registry loads: it is 1 after
  Notifier construction and is never incremented by prepare.
- The sentinel `_marker = object()` default of prepare (notifier.py
  lines 137, 139, 251-253) is modelled by Option PyVal: `none` is the
  marker (argument omitted), `some p` is an explicitly supplied Python
  value p, which may itself be falsy (None or the empty string).
-/

namespace OsloNotify

/-- A Python value as it flows through the notifier pipeline. -/
inductive PyVal where
  | vnone : PyVal
  | vstr : String → PyVal
  | vint : Int → PyVal
deriving Repr, DecidableEq

/-- Python truthiness of a PyVal: None is falsy, a string is falsy iff
empty, an integer is falsy iff zero. -/
def PyVal.truthy : PyVal → Bool
  | PyVal.vnone => false
  | PyVal.vstr s => !s.isEmpty
  | PyVal.vint n => n != 0

/-- A Python exception, identified by its message. -/
structure PyErr where
  msg : String
deriving Repr, DecidableEq

/-- An entity/context serializer as injected into the Notifier
(notifier.py line 99, used at lines 152-153).  `truthy` is the Python
truthiness of the serializer object itself, which line 124
(`serializer or msg_serializer.NoOpSerializer()`) tests. -/
structure Serializer where
  truthy : Bool
  serialize_entity : PyVal → PyVal → Except PyErr PyVal
  serialize_context : PyVal → Except PyErr PyVal

/-- Modelled from the spec: `msg_serializer.NoOpSerializer` lives in
oslo/messaging/serializer.py, which is not under src/; the spec
describes it as "a pass-through no-op serializer", so both methods
return their argument unchanged and never raise.  A live serializer
object is truthy in Python. -/
def NoOpSerializer : Serializer :=
  { truthy := true
    serialize_entity := fun _ entity => Except.ok entity
    serialize_context := fun ctxt => Except.ok ctxt }

/-- The notification message dict built at notifier.py lines 155-160.
The serialized context is passed to drivers separately, not stored in
the dict, exactly as in the source. -/
structure Envelope where
  message_id : PyVal
  publisher_id : PyVal
  event_type : PyVal
  priority : PyVal
  payload : PyVal
  timestamp : PyVal
deriving Repr, DecidableEq

/-- A loaded notification driver (an extension held by the stevedore
manager).  The source _Driver also stores (conf, topics, transport)
given at construction; no modelled operation reads them back, so only
the name and the notify capability (notifier.py line 52) appear. -/
structure Driver where
  name : String
  notify : PyVal → Envelope → PyVal → Except PyErr Unit

/-- Observable dispatch events: a driver invocation with the exact
arguments it received, and a log record written by the except branch of
do_notify (error plus the serialized payload, notifier.py lines
166-168). -/
inductive Event where
  | invoked : String → PyVal → Envelope → PyVal → Event
  | logged : PyErr → PyVal → Event
deriving Repr, DecidableEq

/-- State of a Notifier (and of a _SubNotifier, which carries the same
dispatch-relevant attributes copied from its base at notifier.py lines
238-245).  conf, _driver_names and _topics are construction-time inputs
to the stevedore load and are not read by any modelled operation, so
they are not stored. -/
structure Notifier where
  transport : Nat
  publisher_id : PyVal
  serializer : Serializer
  drivers : List Driver
  loadCount : Nat

/-- Notifier.__init__ (notifier.py lines 97-135): publisher_id defaults
to None, `serializer or NoOpSerializer()` picks the fallback whenever
the supplied serializer is absent or falsy, and the driver registry is
loaded exactly once (loadCount := 1).  `loaded` stands for the driver
instances the stevedore NamedExtensionManager produced. -/
def Notifier.init (transport : Nat) (publisher_id : PyVal)
    (serializer : Option Serializer) (loaded : List Driver) : Notifier :=
  { transport := transport
    publisher_id := publisher_id
    serializer :=
      match serializer with
      | none => NoOpSerializer
      | some s => if s.truthy then s else NoOpSerializer
    drivers := loaded
    loadCount := 1 }

/-- The envelope literal of notifier.py lines 155-160:
publisher_id is `publisher_id or self.publisher_id` (Python `or`, hence
truthiness), message_id the injected uuid, timestamp the injected
clock string. -/
def builtEnvelope (n : Notifier) (uuid timestamp : String)
    (publisher_id event_type priority payload2 : PyVal) : Envelope :=
  { message_id := PyVal.vstr uuid
    publisher_id := if publisher_id.truthy then publisher_id else n.publisher_id
    event_type := event_type
    priority := priority
    payload := payload2
    timestamp := PyVal.vstr timestamp }

/-- The do_notify closure (notifier.py lines 162-168): invoke the
driver with (serialized context, msg, priority); on any exception,
catch it and log it together with the serialized payload. -/
def do_notify (ctxt2 : PyVal) (msg : Envelope) (priority payload2 : PyVal)
    (d : Driver) : List Event :=
  match d.notify ctxt2 msg priority with
  | Except.ok _ => [Event.invoked d.name ctxt2 msg priority]
  | Except.error e => [Event.invoked d.name ctxt2 msg priority, Event.logged e payload2]

/-- The dispatch step of notifier.py lines 170-171: if the extension
list is non-empty, map do_notify over it; otherwise do nothing. -/
def dispatchEvents (n : Notifier) (ctxt2 : PyVal) (msg : Envelope)
    (priority payload2 : PyVal) : List Event :=
  if n.drivers.isEmpty then []
  else (n.drivers.map (do_notify ctxt2 msg priority payload2)).flatten

/-- Notifier._notify (notifier.py lines 151-171): serialize the
payload, then the context (either step may raise, which propagates);
build the envelope; dispatch to every loaded driver.  The result pairs
the built envelope with the observable dispatch events. -/
def Notifier._notify (n : Notifier) (uuid timestamp : String)
    (ctxt event_type payload priority publisher_id : PyVal) :
    Except PyErr (Envelope × List Event) :=
  match n.serializer.serialize_entity ctxt payload with
  | Except.error e => Except.error e
  | Except.ok payload2 =>
    match n.serializer.serialize_context ctxt with
    | Except.error e => Except.error e
    | Except.ok ctxt2 =>
      let msg := builtEnvelope n uuid timestamp publisher_id event_type priority payload2
      Except.ok (msg, dispatchEvents n ctxt2 msg priority payload2)

/-- Notifier.debug (notifier.py line 183). -/
def Notifier.debug (n : Notifier) (uuid timestamp : String)
    (ctxt event_type payload : PyVal) : Except PyErr (Envelope × List Event) :=
  Notifier._notify n uuid timestamp ctxt event_type payload (PyVal.vstr "DEBUG") PyVal.vnone

/-- Notifier.info (notifier.py line 195). -/
def Notifier.info (n : Notifier) (uuid timestamp : String)
    (ctxt event_type payload : PyVal) : Except PyErr (Envelope × List Event) :=
  Notifier._notify n uuid timestamp ctxt event_type payload (PyVal.vstr "INFO") PyVal.vnone

/-- Notifier.warn (notifier.py line 207). -/
def Notifier.warn (n : Notifier) (uuid timestamp : String)
    (ctxt event_type payload : PyVal) : Except PyErr (Envelope × List Event) :=
  Notifier._notify n uuid timestamp ctxt event_type payload (PyVal.vstr "WARN") PyVal.vnone

/-- Notifier.error (notifier.py line 219). -/
def Notifier.error (n : Notifier) (uuid timestamp : String)
    (ctxt event_type payload : PyVal) : Except PyErr (Envelope × List Event) :=
  Notifier._notify n uuid timestamp ctxt event_type payload (PyVal.vstr "ERROR") PyVal.vnone

/-- Notifier.critical (notifier.py line 231). -/
def Notifier.critical (n : Notifier) (uuid timestamp : String)
    (ctxt event_type payload : PyVal) : Except PyErr (Envelope × List Event) :=
  Notifier._notify n uuid timestamp ctxt event_type payload (PyVal.vstr "CRITICAL") PyVal.vnone

/-- _SubNotifier._prepare (notifier.py lines 250-254) together with
_SubNotifier.__init__ (lines 238-245): if publisher_id is the marker
(argument omitted, modelled by `none`), inherit the publisher_id of the
base; otherwise take the supplied value, falsy or not.  All other
dispatch-relevant attributes are taken from the base unchanged, and no
driver load happens (loadCount is preserved). -/
def _SubNotifier._prepare (base : Notifier) (publisher_id : Option PyVal) : Notifier :=
  let pid :=
    match publisher_id with
    | none => base.publisher_id
    | some p => p
  { transport := base.transport
    publisher_id := pid
    serializer := base.serializer
    drivers := base.drivers
    loadCount := base.loadCount }

/-- Notifier.prepare (notifier.py lines 139-149), also inherited by
_SubNotifier, so preparing a specialized notifier goes through the same
path with the specialized notifier as base. -/
def Notifier.prepare (n : Notifier) (publisher_id : Option PyVal) : Notifier :=
  _SubNotifier._prepare n publisher_id

/-- Names of the drivers invoked in an event trace, in order. -/
def invokedNames (evs : List Event) : List String :=
  evs.filterMap fun ev =>
    match ev with
    | Event.invoked nm _ _ _ => some nm
    | Event.logged _ _ => none

/-- A driver whose notify always succeeds. -/
def dOk : Driver :=
  { name := "ok-driver", notify := fun _ _ _ => Except.ok () }

/-- A sample delivery failure. -/
def sampleErr : PyErr := { msg := "boom" }

/-- A driver whose notify always raises sampleErr. -/
def dFail : Driver :=
  { name := "fail-driver", notify := fun _ _ _ => Except.error sampleErr }

/-- A notifier with two drivers, the first of which raises. -/
def twoDriverN : Notifier :=
  Notifier.init 0 (PyVal.vstr "compute.host1") (some NoOpSerializer) [dFail, dOk]

/-- A notifier with no loaded drivers. -/
def zeroDriverN : Notifier :=
  Notifier.init 0 (PyVal.vstr "compute.host1") (some NoOpSerializer) []

/-- A notifier constructed without an explicit publisher_id: the
__init__ default is None. -/
def noPubN : Notifier :=
  Notifier.init 0 PyVal.vnone (some NoOpSerializer) [dOk]

/-- A sample serialization failure. -/
def sampleSerErr : PyErr := { msg := "not serializable" }

/-- A serializer whose serialize_entity always raises. -/
def entityFailSerializer : Serializer :=
  { truthy := true
    serialize_entity := fun _ _ => Except.error sampleSerErr
    serialize_context := fun ctxt => Except.ok ctxt }

/-- A serializer whose serialize_context always raises. -/
def contextFailSerializer : Serializer :=
  { truthy := true
    serialize_entity := fun _ entity => Except.ok entity
    serialize_context := fun _ => Except.error sampleSerErr }

/-- A notifier whose serializer fails on entities. -/
def entityFailN : Notifier :=
  Notifier.init 0 (PyVal.vstr "compute.host1") (some entityFailSerializer) [dOk]

/-- A notifier whose serializer fails on contexts. -/
def contextFailN : Notifier :=
  Notifier.init 0 (PyVal.vstr "compute.host1") (some contextFailSerializer) [dOk]

/-- A serializer object that is falsy in Python (bool(serializer) is
False) yet has its own behavior, to observe whether line 124 keeps it. -/
def falsySerializer : Serializer :=
  { truthy := false
    serialize_entity := fun _ _ => Except.ok (PyVal.vstr "falsy-entity")
    serialize_context := fun _ => Except.ok (PyVal.vstr "falsy-context") }

/-- The envelope noPubN.info builds with uuid "uuid-1" and timestamp
"ts": its publisher_id is None. -/
def envC3 : Envelope :=
  { message_id := PyVal.vstr "uuid-1"
    publisher_id := PyVal.vnone
    event_type := PyVal.vstr "ev"
    priority := PyVal.vstr "INFO"
    payload := PyVal.vstr "pl"
    timestamp := PyVal.vstr "ts" }

/-- The envelope twoDriverN._notify builds with uuid "u", timestamp
"t", context "c", event_type "e", payload "p", priority "INFO" and no
publisher_id override. -/
def envW : Envelope :=
  { message_id := PyVal.vstr "u"
    publisher_id := PyVal.vstr "compute.host1"
    event_type := PyVal.vstr "e"
    priority := PyVal.vstr "INFO"
    payload := PyVal.vstr "p"
    timestamp := PyVal.vstr "t" }

/-- The dispatch trace of that call: the failing driver is invoked, its
error is logged with the serialized payload, and the second driver is
still invoked. -/
def evsW : List Event :=
  [Event.invoked "fail-driver" (PyVal.vstr "c") envW (PyVal.vstr "INFO"),
   Event.logged sampleErr (PyVal.vstr "p"),
   Event.invoked "ok-driver" (PyVal.vstr "c") envW (PyVal.vstr "INFO")]

/-- The envelope zeroDriverN.debug builds with uuid "u" and timestamp
"t". -/
def envC6 : Envelope :=
  { message_id := PyVal.vstr "u"
    publisher_id := PyVal.vstr "compute.host1"
    event_type := PyVal.vstr "e"
    priority := PyVal.vstr "DEBUG"
    payload := PyVal.vstr "p"
    timestamp := PyVal.vstr "t" }

/-- Unfolding lemma: when serialize_entity raises, _notify propagates
exactly that error. -/
theorem notify_entity_error (n : Notifier) (uuid timestamp : String)
    (ctxt event_type payload priority publisher_id : PyVal) (e : PyErr)
    (hent : n.serializer.serialize_entity ctxt payload = Except.error e) :
    Notifier._notify n uuid timestamp ctxt event_type payload priority publisher_id =
      Except.error e := by
  simp only [Notifier._notify, hent]

/-- Unfolding lemma: when serialize_entity succeeds and
serialize_context raises, _notify propagates exactly that error. -/
theorem notify_context_error (n : Notifier) (uuid timestamp : String)
    (ctxt event_type payload priority publisher_id : PyVal) (payload2 : PyVal) (e : PyErr)
    (hent : n.serializer.serialize_entity ctxt payload = Except.ok payload2)
    (hctx : n.serializer.serialize_context ctxt = Except.error e) :
    Notifier._notify n uuid timestamp ctxt event_type payload priority publisher_id =
      Except.error e := by
  simp only [Notifier._notify, hent, hctx]

/-- Unfolding lemma: when both serialization steps succeed, _notify
returns the built envelope and the dispatch trace. -/
theorem notify_ok (n : Notifier) (uuid timestamp : String)
    (ctxt event_type payload priority publisher_id : PyVal) (payload2 ctxt2 : PyVal)
    (hent : n.serializer.serialize_entity ctxt payload = Except.ok payload2)
    (hctx : n.serializer.serialize_context ctxt = Except.ok ctxt2) :
    Notifier._notify n uuid timestamp ctxt event_type payload priority publisher_id =
      Except.ok (builtEnvelope n uuid timestamp publisher_id event_type priority payload2,
        dispatchEvents n ctxt2
          (builtEnvelope n uuid timestamp publisher_id event_type priority payload2)
          priority payload2) := by
  simp only [Notifier._notify, hent, hctx]

/-- Elimination lemma: a successful _notify determines the envelope and
the trace from successful serialization results. -/
theorem notify_ok_elim (n : Notifier) (uuid timestamp : String)
    (ctxt event_type payload priority publisher_id : PyVal)
    (env : Envelope) (evs : List Event)
    (h : Notifier._notify n uuid timestamp ctxt event_type payload priority publisher_id =
      Except.ok (env, evs)) :
    ∃ payload2 ctxt2,
      n.serializer.serialize_entity ctxt payload = Except.ok payload2 ∧
      n.serializer.serialize_context ctxt = Except.ok ctxt2 ∧
      env = builtEnvelope n uuid timestamp publisher_id event_type priority payload2 ∧
      evs = dispatchEvents n ctxt2 env priority payload2 := by
  cases hent : n.serializer.serialize_entity ctxt payload with
  | error e => rw [notify_entity_error n uuid timestamp ctxt event_type payload priority publisher_id e hent] at h; exact absurd h (by simp)
  | ok payload2 =>
    cases hctx : n.serializer.serialize_context ctxt with
    | error e => rw [notify_context_error n uuid timestamp ctxt event_type payload priority publisher_id payload2 e hent hctx] at h; exact absurd h (by simp)
    | ok ctxt2 =>
      rw [notify_ok n uuid timestamp ctxt event_type payload priority publisher_id payload2 ctxt2 hent hctx] at h
      have h2 := h
      simp only [Except.ok.injEq, Prod.mk.injEq] at h2
      refine ⟨payload2, ctxt2, rfl, rfl, h2.1.symm, ?_⟩
      rw [← h2.1]
      exact h2.2.symm

/-- do_notify produces exactly one invocation of its driver. -/
theorem invokedNames_do_notify (ctxt2 : PyVal) (msg : Envelope)
    (priority payload2 : PyVal) (d : Driver) :
    invokedNames (do_notify ctxt2 msg priority payload2 d) = [d.name] := by
  cases h : d.notify ctxt2 msg priority with
  | ok u => simp [do_notify, invokedNames, h]
  | error e => simp [do_notify, invokedNames, h]

/-- Mapping do_notify over a driver list and flattening invokes every
driver exactly once, in list order. -/
theorem invokedNames_flatten (ctxt2 : PyVal) (msg : Envelope)
    (priority payload2 : PyVal) (ds : List Driver) :
    invokedNames ((ds.map (do_notify ctxt2 msg priority payload2)).flatten) =
      ds.map Driver.name := by
  induction ds with
  | nil => rfl
  | cons d ds ih =>
    simp only [List.map_cons, List.flatten_cons]
    unfold invokedNames at ih ⊢
    rw [List.filterMap_append, ih]
    have h1 := invokedNames_do_notify ctxt2 msg priority payload2 d
    unfold invokedNames at h1
    rw [h1]
    rfl

/-- The dispatch trace invokes every loaded driver exactly once, in
registry order. -/
theorem invokedNames_dispatchEvents (n : Notifier) (ctxt2 : PyVal) (msg : Envelope)
    (priority payload2 : PyVal) :
    invokedNames (dispatchEvents n ctxt2 msg priority payload2) =
      n.drivers.map Driver.name := by
  unfold dispatchEvents
  by_cases hd : n.drivers.isEmpty
  · rw [if_pos hd]
    rw [List.isEmpty_iff] at hd
    rw [hd]
    rfl
  · rw [if_neg hd]
    exact invokedNames_flatten ctxt2 msg priority payload2 n.drivers

/-- Membership in a do_notify trace: either the invocation event or,
when the driver raised, the log record carrying the serialized payload. -/
theorem mem_do_notify (ctxt2 : PyVal) (msg : Envelope) (priority payload2 : PyVal)
    (d : Driver) (ev : Event) (h : ev ∈ do_notify ctxt2 msg priority payload2 d) :
    ev = Event.invoked d.name ctxt2 msg priority ∨
      ∃ e, d.notify ctxt2 msg priority = Except.error e ∧ ev = Event.logged e payload2 := by
  cases hn : d.notify ctxt2 msg priority with
  | ok u =>
    simp only [do_notify, hn, List.mem_singleton] at h
    exact Or.inl h
  | error e =>
    simp only [do_notify, hn, List.mem_cons, List.mem_singleton, List.not_mem_nil, or_false] at h
    cases h with
    | inl h1 => exact Or.inl h1
    | inr h2 => exact Or.inr ⟨e, rfl, h2⟩

/-- When a loaded driver raises, the dispatch trace contains the log
record with the error and the serialized payload. -/
theorem logged_mem_dispatchEvents (n : Notifier) (ctxt2 : PyVal) (msg : Envelope)
    (priority payload2 : PyVal) (d : Driver) (e : PyErr)
    (hd : d ∈ n.drivers) (hn : d.notify ctxt2 msg priority = Except.error e) :
    Event.logged e payload2 ∈ dispatchEvents n ctxt2 msg priority payload2 := by
  have hne : ¬ n.drivers.isEmpty = true := by
    rw [List.isEmpty_iff]
    intro hnil
    rw [hnil] at hd
    exact absurd hd (List.not_mem_nil d)
  unfold dispatchEvents
  rw [if_neg hne]
  rw [List.mem_flatten]
  refine ⟨do_notify ctxt2 msg priority payload2 d, List.mem_map_of_mem _ hd, ?_⟩
  simp [do_notify, hn]

/-- Every event of a dispatch trace arises from one of the loaded
drivers. -/
theorem mem_dispatchEvents (n : Notifier) (ctxt2 : PyVal) (msg : Envelope)
    (priority payload2 : PyVal) (ev : Event)
    (h : ev ∈ dispatchEvents n ctxt2 msg priority payload2) :
    ∃ d ∈ n.drivers, ev ∈ do_notify ctxt2 msg priority payload2 d := by
  unfold dispatchEvents at h
  by_cases hd : n.drivers.isEmpty
  · rw [if_pos hd] at h
    exact absurd h (List.not_mem_nil ev)
  · rw [if_neg hd] at h
    rw [List.mem_flatten] at h
    obtain ⟨l, hl, hev⟩ := h
    rw [List.mem_map] at hl
    obtain ⟨d, hdmem, rfl⟩ := hl
    exact ⟨d, hdmem, hev⟩

/-- C1: on a notify call whose serialization succeeds, with at least
two loaded drivers of which one always raises, the dispatcher catches
the exception, logs it together with the serialized payload, still
invokes every driver exactly once each (the trace lists exactly the
registry, in order), and the overall call returns normally (Except.ok,
no propagated exception). -/
theorem C1_driver_failure_isolated (n : Notifier) (uuid timestamp : String)
    (ctxt event_type payload priority publisher_id payload2 ctxt2 : PyVal)
    (hent : n.serializer.serialize_entity ctxt payload = Except.ok payload2)
    (hctx : n.serializer.serialize_context ctxt = Except.ok ctxt2)
    (htwo : 2 ≤ n.drivers.length)
    (d : Driver) (e : PyErr) (hd : d ∈ n.drivers)
    (hfail : ∀ msg pr, d.notify ctxt2 msg pr = Except.error e) :
    ∃ env evs,
      Notifier._notify n uuid timestamp ctxt event_type payload priority publisher_id =
        Except.ok (env, evs) ∧
      invokedNames evs = n.drivers.map Driver.name ∧
      Event.logged e payload2 ∈ evs := by
  refine ⟨builtEnvelope n uuid timestamp publisher_id event_type priority payload2, _,
    notify_ok n uuid timestamp ctxt event_type payload priority publisher_id payload2 ctxt2 hent hctx,
    invokedNames_dispatchEvents n ctxt2 _ priority payload2, ?_⟩
  exact logged_mem_dispatchEvents n ctxt2 _ priority payload2 d e hd (hfail _ _)

/-- Witness for C1: the two-driver notifier whose first driver always
raises; the second driver is still invoked and the call returns
Except.ok. -/
theorem C1_witness :
    ∃ env evs,
      Notifier._notify twoDriverN "u" "t" (PyVal.vstr "c") (PyVal.vstr "e") (PyVal.vstr "p")
          (PyVal.vstr "INFO") PyVal.vnone = Except.ok (env, evs) ∧
      invokedNames evs = twoDriverN.drivers.map Driver.name ∧
      Event.logged sampleErr (PyVal.vstr "p") ∈ evs :=
  C1_driver_failure_isolated twoDriverN "u" "t" (PyVal.vstr "c") (PyVal.vstr "e")
    (PyVal.vstr "p") (PyVal.vstr "INFO") PyVal.vnone (PyVal.vstr "p") (PyVal.vstr "c")
    rfl rfl (by decide) dFail sampleErr (List.mem_cons_self dFail [dOk]) (fun _ _ => rfl)

/-- C3 counterexample: a Notifier constructed without an explicit
publisher_id (the __init__ default is None) dispatches an envelope
whose publisher_id is None (null), refuting the claim that
publisher_id is non-null for every Notifier. -/
theorem C3_counterexample :
    Notifier.info noPubN "uuid-1" "ts" (PyVal.vstr "ctx") (PyVal.vstr "ev") (PyVal.vstr "pl") =
      Except.ok (envC3, [Event.invoked "ok-driver" (PyVal.vstr "ctx") envC3 (PyVal.vstr "INFO")]) ∧
    envC3.publisher_id = PyVal.vnone :=
  ⟨rfl, rfl⟩

/-- C3 (amended): every dispatched envelope carries all its fields:
message_id is the injected uuid string and timestamp the injected clock
string (both non-null), event_type and priority are exactly the values
given, and publisher_id is the override when truthy, otherwise the
publisher_id of the notifier itself, which is None (null) when the
Notifier was constructed without an explicit publisher_id. -/
theorem C3_envelope_fields (n : Notifier) (uuid timestamp : String)
    (ctxt event_type payload priority publisher_id : PyVal)
    (env : Envelope) (evs : List Event)
    (h : Notifier._notify n uuid timestamp ctxt event_type payload priority publisher_id =
      Except.ok (env, evs)) :
    env.message_id = PyVal.vstr uuid ∧ env.message_id ≠ PyVal.vnone ∧
    env.timestamp = PyVal.vstr timestamp ∧ env.timestamp ≠ PyVal.vnone ∧
    env.event_type = event_type ∧ env.priority = priority ∧
    env.publisher_id = (if publisher_id.truthy then publisher_id else n.publisher_id) := by
  obtain ⟨payload2, ctxt2, hent, hctx, henv, hevs⟩ :=
    notify_ok_elim n uuid timestamp ctxt event_type payload priority publisher_id env evs h
  rw [henv]
  refine ⟨rfl, ?_, rfl, ?_, rfl, rfl, rfl⟩
  · intro hcontra
    exact PyVal.noConfusion hcontra
  · intro hcontra
    exact PyVal.noConfusion hcontra

/-- Witness for C3 (amended), at the two-driver notifier. -/
theorem C3_witness :
    envW.message_id = PyVal.vstr "u" ∧ envW.message_id ≠ PyVal.vnone ∧
    envW.timestamp = PyVal.vstr "t" ∧ envW.timestamp ≠ PyVal.vnone ∧
    envW.event_type = PyVal.vstr "e" ∧ envW.priority = PyVal.vstr "INFO" ∧
    envW.publisher_id =
      (if PyVal.vnone.truthy then PyVal.vnone else twoDriverN.publisher_id) :=
  C3_envelope_fields twoDriverN "u" "t" (PyVal.vstr "c") (PyVal.vstr "e") (PyVal.vstr "p")
    (PyVal.vstr "INFO") PyVal.vnone envW evsW rfl

/-- C4: prepare with the publisher_id argument omitted (the sentinel
marker) inherits the publisher_id of the base, while an explicitly
supplied value, including the falsy values None and the empty string,
overrides it; preparing an already specialized notifier behaves
identically, chaining from the resolved publisher_id of the immediate
parent. -/
theorem C4_prepare_publisher_id (n : Notifier) (p q : PyVal) :
    (Notifier.prepare n none).publisher_id = n.publisher_id ∧
    (Notifier.prepare n (some p)).publisher_id = p ∧
    (Notifier.prepare n (some PyVal.vnone)).publisher_id = PyVal.vnone ∧
    (Notifier.prepare n (some (PyVal.vstr ""))).publisher_id = PyVal.vstr "" ∧
    (Notifier.prepare (Notifier.prepare n (some q)) none).publisher_id = q ∧
    (Notifier.prepare (Notifier.prepare n (some q)) (some p)).publisher_id = p :=
  ⟨rfl, rfl, rfl, rfl, rfl, rfl⟩

/-- C5: a prepared (specialized) notifier shares the driver registry,
the serializer and the transport of its base unchanged, and no driver
load happens during prepare (the load count is exactly that of the
base); the Notifier structure has no further field besides
publisher_id, so only the publisher_id may differ. -/
theorem C5_prepare_shares_state (n : Notifier) (p : Option PyVal) :
    (Notifier.prepare n p).drivers = n.drivers ∧
    (Notifier.prepare n p).serializer = n.serializer ∧
    (Notifier.prepare n p).transport = n.transport ∧
    (Notifier.prepare n p).loadCount = n.loadCount :=
  ⟨rfl, rfl, rfl, rfl⟩

/-- C6: each leveled operation equals _notify with its fixed priority
string and no publisher_id override (so the leveled operations differ
in nothing but the priority), and on success the built envelope has
exactly that priority. -/
theorem C6_leveled_operations (n : Notifier) (uuid timestamp : String)
    (ctxt event_type payload : PyVal) :
    (Notifier.debug n uuid timestamp ctxt event_type payload =
      Notifier._notify n uuid timestamp ctxt event_type payload (PyVal.vstr "DEBUG") PyVal.vnone) ∧
    (Notifier.info n uuid timestamp ctxt event_type payload =
      Notifier._notify n uuid timestamp ctxt event_type payload (PyVal.vstr "INFO") PyVal.vnone) ∧
    (Notifier.warn n uuid timestamp ctxt event_type payload =
      Notifier._notify n uuid timestamp ctxt event_type payload (PyVal.vstr "WARN") PyVal.vnone) ∧
    (Notifier.error n uuid timestamp ctxt event_type payload =
      Notifier._notify n uuid timestamp ctxt event_type payload (PyVal.vstr "ERROR") PyVal.vnone) ∧
    (Notifier.critical n uuid timestamp ctxt event_type payload =
      Notifier._notify n uuid timestamp ctxt event_type payload (PyVal.vstr "CRITICAL") PyVal.vnone) ∧
    (∀ env evs, Notifier.debug n uuid timestamp ctxt event_type payload = Except.ok (env, evs) →
      env.priority = PyVal.vstr "DEBUG") ∧
    (∀ env evs, Notifier.info n uuid timestamp ctxt event_type payload = Except.ok (env, evs) →
      env.priority = PyVal.vstr "INFO") ∧
    (∀ env evs, Notifier.warn n uuid timestamp ctxt event_type payload = Except.ok (env, evs) →
      env.priority = PyVal.vstr "WARN") ∧
    (∀ env evs, Notifier.error n uuid timestamp ctxt event_type payload = Except.ok (env, evs) →
      env.priority = PyVal.vstr "ERROR") ∧
    (∀ env evs, Notifier.critical n uuid timestamp ctxt event_type payload = Except.ok (env, evs) →
      env.priority = PyVal.vstr "CRITICAL") := by
  refine ⟨rfl, rfl, rfl, rfl, rfl, ?_, ?_, ?_, ?_, ?_⟩
  all_goals
    intro env evs h
    obtain ⟨payload2, ctxt2, hent, hctx, henv, hevs⟩ :=
      notify_ok_elim n uuid timestamp ctxt event_type payload _ PyVal.vnone env evs h
    rw [henv]
    rfl

/-- Witness for C6: the debug operation on the zero-driver notifier,
whose envelope has priority DEBUG. -/
theorem C6_witness :
    (Notifier.debug zeroDriverN "u" "t" (PyVal.vstr "c") (PyVal.vstr "e") (PyVal.vstr "p") =
      Notifier._notify zeroDriverN "u" "t" (PyVal.vstr "c") (PyVal.vstr "e") (PyVal.vstr "p")
        (PyVal.vstr "DEBUG") PyVal.vnone) ∧
    envC6.priority = PyVal.vstr "DEBUG" :=
  ⟨(C6_leveled_operations zeroDriverN "u" "t" (PyVal.vstr "c") (PyVal.vstr "e")
      (PyVal.vstr "p")).1,
   (C6_leveled_operations zeroDriverN "u" "t" (PyVal.vstr "c") (PyVal.vstr "e")
      (PyVal.vstr "p")).2.2.2.2.2.1 envC6 [] rfl⟩

/-- C7: when serializing the payload raises, _notify propagates exactly
that exception, and likewise when serializing the context raises after
the payload succeeded; an Except.error result carries no dispatch
trace, so no driver is invoked for that call and no partial envelope is
dispatched. -/
theorem C7_serialization_error_propagates (n : Notifier) (uuid timestamp : String)
    (ctxt event_type payload priority publisher_id : PyVal) (e : PyErr) :
    (n.serializer.serialize_entity ctxt payload = Except.error e →
      Notifier._notify n uuid timestamp ctxt event_type payload priority publisher_id =
        Except.error e) ∧
    (∀ payload2, n.serializer.serialize_entity ctxt payload = Except.ok payload2 →
      n.serializer.serialize_context ctxt = Except.error e →
      Notifier._notify n uuid timestamp ctxt event_type payload priority publisher_id =
        Except.error e) :=
  ⟨fun hent => notify_entity_error n uuid timestamp ctxt event_type payload priority publisher_id e hent,
   fun payload2 hent hctx =>
     notify_context_error n uuid timestamp ctxt event_type payload priority publisher_id payload2 e hent hctx⟩

/-- Witness for C7: a payload-serialization failure and a
context-serialization failure each propagate to the caller. -/
theorem C7_witness :
    Notifier._notify entityFailN "u" "t" (PyVal.vstr "c") (PyVal.vstr "e") (PyVal.vstr "p")
      (PyVal.vstr "INFO") PyVal.vnone = Except.error sampleSerErr ∧
    Notifier._notify contextFailN "u" "t" (PyVal.vstr "c") (PyVal.vstr "e") (PyVal.vstr "p")
      (PyVal.vstr "INFO") PyVal.vnone = Except.error sampleSerErr :=
  ⟨(C7_serialization_error_propagates entityFailN "u" "t" (PyVal.vstr "c") (PyVal.vstr "e")
      (PyVal.vstr "p") (PyVal.vstr "INFO") PyVal.vnone sampleSerErr).1 rfl,
   (C7_serialization_error_propagates contextFailN "u" "t" (PyVal.vstr "c") (PyVal.vstr "e")
      (PyVal.vstr "p") (PyVal.vstr "INFO") PyVal.vnone sampleSerErr).2 (PyVal.vstr "p") rfl rfl⟩

/-- C8: on a notifier with an empty loaded driver set, every leveled
operation returns normally (Except.ok) with an empty dispatch trace: no
driver is invoked and no dispatch work happens. -/
theorem C8_empty_drivers_noop (n : Notifier) (uuid timestamp : String)
    (ctxt event_type payload payload2 ctxt2 : PyVal)
    (hempty : n.drivers = [])
    (hent : n.serializer.serialize_entity ctxt payload = Except.ok payload2)
    (hctx : n.serializer.serialize_context ctxt = Except.ok ctxt2) :
    (∃ env, Notifier.debug n uuid timestamp ctxt event_type payload = Except.ok (env, [])) ∧
    (∃ env, Notifier.info n uuid timestamp ctxt event_type payload = Except.ok (env, [])) ∧
    (∃ env, Notifier.warn n uuid timestamp ctxt event_type payload = Except.ok (env, [])) ∧
    (∃ env, Notifier.error n uuid timestamp ctxt event_type payload = Except.ok (env, [])) ∧
    (∃ env, Notifier.critical n uuid timestamp ctxt event_type payload = Except.ok (env, [])) := by
  have hdisp : ∀ c m pr pl, dispatchEvents n c m pr pl = [] := by
    intro c m pr pl
    simp [dispatchEvents, hempty]
  refine
    ⟨⟨builtEnvelope n uuid timestamp PyVal.vnone event_type (PyVal.vstr "DEBUG") payload2, ?_⟩,
     ⟨builtEnvelope n uuid timestamp PyVal.vnone event_type (PyVal.vstr "INFO") payload2, ?_⟩,
     ⟨builtEnvelope n uuid timestamp PyVal.vnone event_type (PyVal.vstr "WARN") payload2, ?_⟩,
     ⟨builtEnvelope n uuid timestamp PyVal.vnone event_type (PyVal.vstr "ERROR") payload2, ?_⟩,
     ⟨builtEnvelope n uuid timestamp PyVal.vnone event_type (PyVal.vstr "CRITICAL") payload2, ?_⟩⟩
  · unfold Notifier.debug
    rw [notify_ok n uuid timestamp ctxt event_type payload (PyVal.vstr "DEBUG") PyVal.vnone payload2 ctxt2 hent hctx, hdisp]
  · unfold Notifier.info
    rw [notify_ok n uuid timestamp ctxt event_type payload (PyVal.vstr "INFO") PyVal.vnone payload2 ctxt2 hent hctx, hdisp]
  · unfold Notifier.warn
    rw [notify_ok n uuid timestamp ctxt event_type payload (PyVal.vstr "WARN") PyVal.vnone payload2 ctxt2 hent hctx, hdisp]
  · unfold Notifier.error
    rw [notify_ok n uuid timestamp ctxt event_type payload (PyVal.vstr "ERROR") PyVal.vnone payload2 ctxt2 hent hctx, hdisp]
  · unfold Notifier.critical
    rw [notify_ok n uuid timestamp ctxt event_type payload (PyVal.vstr "CRITICAL") PyVal.vnone payload2 ctxt2 hent hctx, hdisp]

/-- Witness for C8: the zero-driver notifier. -/
theorem C8_witness :
    (∃ env, Notifier.debug zeroDriverN "u" "t" (PyVal.vstr "c") (PyVal.vstr "e") (PyVal.vstr "p") =
      Except.ok (env, [])) ∧
    (∃ env, Notifier.info zeroDriverN "u" "t" (PyVal.vstr "c") (PyVal.vstr "e") (PyVal.vstr "p") =
      Except.ok (env, [])) ∧
    (∃ env, Notifier.warn zeroDriverN "u" "t" (PyVal.vstr "c") (PyVal.vstr "e") (PyVal.vstr "p") =
      Except.ok (env, [])) ∧
    (∃ env, Notifier.error zeroDriverN "u" "t" (PyVal.vstr "c") (PyVal.vstr "e") (PyVal.vstr "p") =
      Except.ok (env, [])) ∧
    (∃ env, Notifier.critical zeroDriverN "u" "t" (PyVal.vstr "c") (PyVal.vstr "e") (PyVal.vstr "p") =
      Except.ok (env, [])) :=
  C8_empty_drivers_noop zeroDriverN "u" "t" (PyVal.vstr "c") (PyVal.vstr "e") (PyVal.vstr "p")
    (PyVal.vstr "p") (PyVal.vstr "c") rfl rfl rfl

/-- C9: on a successful notify call, the payload inside the envelope is
exactly the serialize_entity result, and every driver invocation in the
trace received exactly the serialize_context result and exactly the
built envelope: the dispatcher applies no transformation between
serialization and driver invocation. -/
theorem C9_no_transformation (n : Notifier) (uuid timestamp : String)
    (ctxt event_type payload priority publisher_id payload2 ctxt2 : PyVal)
    (hent : n.serializer.serialize_entity ctxt payload = Except.ok payload2)
    (hctx : n.serializer.serialize_context ctxt = Except.ok ctxt2)
    (env : Envelope) (evs : List Event)
    (h : Notifier._notify n uuid timestamp ctxt event_type payload priority publisher_id =
      Except.ok (env, evs)) :
    env.payload = payload2 ∧
    ∀ nm c m pr, Event.invoked nm c m pr ∈ evs → c = ctxt2 ∧ m = env := by
  rw [notify_ok n uuid timestamp ctxt event_type payload priority publisher_id payload2 ctxt2 hent hctx] at h
  simp only [Except.ok.injEq, Prod.mk.injEq] at h
  obtain ⟨henv, hevs⟩ := h
  subst henv
  subst hevs
  constructor
  · rfl
  · intro nm c m pr hmem
    obtain ⟨d, hdmem, hdo⟩ := mem_dispatchEvents n ctxt2 _ priority payload2 _ hmem
    cases mem_do_notify ctxt2 _ priority payload2 d _ hdo with
    | inl h1 =>
      injection h1 with h1a h1b h1c h1d
      exact ⟨h1b, h1c⟩
    | inr h2 =>
      obtain ⟨e, _, heq⟩ := h2
      exact Event.noConfusion heq

/-- Witness for C9: at the two-driver notifier, the envelope payload is
the serialized payload and the first invocation received the serialized
context and the built envelope. -/
theorem C9_witness :
    envW.payload = PyVal.vstr "p" ∧ PyVal.vstr "c" = PyVal.vstr "c" ∧ envW = envW :=
  ⟨(C9_no_transformation twoDriverN "u" "t" (PyVal.vstr "c") (PyVal.vstr "e") (PyVal.vstr "p")
      (PyVal.vstr "INFO") PyVal.vnone (PyVal.vstr "p") (PyVal.vstr "c") rfl rfl envW evsW rfl).1,
   ((C9_no_transformation twoDriverN "u" "t" (PyVal.vstr "c") (PyVal.vstr "e") (PyVal.vstr "p")
      (PyVal.vstr "INFO") PyVal.vnone (PyVal.vstr "p") (PyVal.vstr "c") rfl rfl envW evsW rfl).2
      "fail-driver" (PyVal.vstr "c") envW (PyVal.vstr "INFO")
      (List.mem_cons_self _ _)).1,
   ((C9_no_transformation twoDriverN "u" "t" (PyVal.vstr "c") (PyVal.vstr "e") (PyVal.vstr "p")
      (PyVal.vstr "INFO") PyVal.vnone (PyVal.vstr "p") (PyVal.vstr "c") rfl rfl envW evsW rfl).2
      "fail-driver" (PyVal.vstr "c") envW (PyVal.vstr "INFO")
      (List.mem_cons_self _ _)).2⟩

/-- C10: a supplied but falsy serializer object is silently replaced by
the pass-through NoOpSerializer at construction (notifier.py line 124),
and a truthy serializer object is the one actually kept. -/
theorem C10_falsy_serializer_ignored (transport : Nat) (publisher_id : PyVal)
    (loaded : List Driver) (s : Serializer) (hfalsy : s.truthy = false) :
    (Notifier.init transport publisher_id (some s) loaded).serializer = NoOpSerializer ∧
    ∀ s2 : Serializer, s2.truthy = true →
      (Notifier.init transport publisher_id (some s2) loaded).serializer = s2 := by
  constructor
  · simp [Notifier.init, hfalsy]
  · intro s2 h2
    simp [Notifier.init, h2]

/-- Witness for C10: the falsy serializer is dropped for the
NoOpSerializer; a truthy one (NoOpSerializer itself) is kept. -/
theorem C10_witness :
    (Notifier.init 0 PyVal.vnone (some falsySerializer) []).serializer = NoOpSerializer ∧
    (Notifier.init 0 PyVal.vnone (some NoOpSerializer) []).serializer = NoOpSerializer :=
  ⟨(C10_falsy_serializer_ignored 0 PyVal.vnone [] falsySerializer rfl).1,
   (C10_falsy_serializer_ignored 0 PyVal.vnone [] falsySerializer rfl).2 NoOpSerializer rfl⟩

end OsloNotify
